import Mathlib

/-!
# bfexec: domain / vcpu lifecycle (`bfexec/src/main.cpp`)

A shallow embedding of `vcpu_thread`, `attach_to_vm`, `create_elf_vm`,
`protected_main` and `main`.  The program talks to the hypervisor through a
handful of calls; every call is recorded, in program order, in an event trace
carried by the program state, and the answers of the hypervisor are read from a
`World` value.  C++ exceptions and the `gsl::finally` guards are made explicit
by a three-way result type.
-/

namespace Bfexec

/-! ## Data model -/

/-- The value of `EXIT_SUCCESS`. -/
def EXIT_SUCCESS : Nat := 0

/-- The value of `EXIT_FAILURE`. -/
def EXIT_FAILURE : Nat := 1

/-- Modelled from the spec: `bfn::cmdl` (header `cmdl.h`, not among the sources).
The object keeps the fragments handed to `add`, in the order of the calls; the
finished string joins them with a separator that the spec leaves to the string
assembly. -/
structure cmdl where
  frags : List String
deriving DecidableEq, Repr

/-- Modelled from the spec: the default-constructed `bfn::cmdl`, holding nothing. -/
def cmdl.empty : cmdl := ⟨[]⟩

/-- Modelled from the spec: `bfn::cmdl::add`, one more fragment after those
already held. -/
def cmdl.add (c : cmdl) (s : String) : cmdl := ⟨c.frags ++ [s]⟩

/-- Modelled from the spec: `bfn::cmdl::data`, the finished command line. -/
def cmdl.data (sep : String) (c : cmdl) : String := sep.intercalate c.frags

/-- Modelled from the spec: `bfn::cmdl::size`, the length in bytes of the
finished command line. -/
def cmdl.size (sep : String) (c : cmdl) : Nat := (c.data sep).utf8ByteSize

/-- The parsed options (`args_type`); a field is `some` exactly when
`args.count` of its name is non-zero, and `elf` is `args.count("elf")`. -/
structure args_type where
  elf : Bool
  path : Option String
  attach : Option Nat
  size : Option Nat
  uart : Option Nat
  init : Option String
  cmdline : Option String
deriving DecidableEq, Repr

/-- The request `struct create_from_elf_args` as handed to the driver.  The two
pointers are represented by what they point to: the image bytes, and the
command line object whose buffer is passed. -/
structure create_from_elf_args where
  file : List Nat
  file_size : Nat
  cmdl : cmdl
  cmdl_size : Nat
  uart : Nat
  size : Nat
deriving DecidableEq, Repr

/-- What the program does that is visible from outside, one constructor per
kind of call. -/
inductive Event where
  | create_from_elf (req : create_from_elf_args)
  | destroy (domainid : Nat)
  | create_vcpu (domainid : Nat)
  | destroy_vcpu (vcpuid : Nat)
  | run_op (vcpuid : Nat)
  | sleep_for (microseconds : Nat)
  | cerr (text : String)
deriving DecidableEq, Repr

/-- The C++ exceptions the program distinguishes in the handlers of `main`. -/
inductive exn where
  | OptionException (what : String)
  | exception (what : String)
  | other
deriving DecidableEq, Repr

/-- The names the program takes from headers that are not among the sources
(`bfbuilderinterface.h`, `bfstring.h`, `cmdl.h`): the decoding of a `__run_op`
return value, the four result codes of the `switch`, the two status constants,
the number rendering and the command line separator.  The `case` labels of a
C++ `switch` are pairwise different, which `distinct` records. -/
structure Lib where
  run_op_ret : Nat → Nat
  run_op_arg : Nat → Nat
  __enum_run_op__hlt : Nat
  __enum_run_op__fault : Nat
  __enum_run_op__resume_after_interrupt : Nat
  __enum_run_op__yield : Nat
  INVALID_VCPUID : Nat
  SUCCESS : Nat
  to_string : Nat → Nat → String
  cmdl_sep : String
  distinct : [__enum_run_op__hlt, __enum_run_op__fault,
    __enum_run_op__resume_after_interrupt, __enum_run_op__yield].Nodup

/-- The answers of the outside world: the contents of the file at a path
(`none` when `bfn::file` cannot load it and throws), the domain id written back
by `call_ioctl_create_from_elf` (`none` when the call throws), the value returned
by `__vcpu_op__create_vcpu` for a domain, the status returned by
`__vcpu_op__destroy_vcpu` for a vcpu, and the values returned by the successive
calls of `__run_op`.  The classes `bfn::file` and `ioctl` are not among the
sources; the texts of the exceptions they throw stand for whatever they say. -/
structure World where
  file : String → Option (List Nat)
  call_ioctl_create_from_elf : create_from_elf_args → Option Nat
  __vcpu_op__create_vcpu : Nat → Nat
  __vcpu_op__destroy_vcpu : Nat → Nat
  __run_op : List Nat

/-- The program state: the two globals and the events so far. -/
structure State where
  g_vcpuid : Nat
  g_domainid : Nat
  trace : List Event
deriving DecidableEq, Repr

/-- The state at program start: zero-initialised globals, nothing done yet. -/
def State.init : State := ⟨0, 0, []⟩

/-- Record one event after those already in the trace. -/
def State.emit (s : State) (e : Event) : State :=
  { s with trace := s.trace ++ [e] }

/-- How a function call ends: it returns a value, it leaves by an exception, or
it is still inside the run loop when the given `__run_op` results are used up. -/
inductive Res (α : Type) where
  | ok (a : α) (s : State)
  | throw (e : exn) (s : State)
  | running (s : State)
deriving DecidableEq, Repr

/-- The state in which a call ended or stands. -/
def Res.state {α : Type} : Res α → State
  | .ok _ s => s
  | .throw _ s => s
  | .running s => s

/-- The value a call returned, when it returned. -/
def Res.value {α : Type} : Res α → Option α
  | .ok a _ => some a
  | .throw _ _ => none
  | .running _ => none

/-- The guard `gsl::finally`: the action runs when the scope is left, by return
or by exception; it does not run while the body is still running. -/
def finally_ {α : Type} (action : State → State) (body : Res α) : Res α :=
  match body with
  | .ok a s => .ok a (action s)
  | .throw e s => .throw e (action s)
  | .running s => .running s

/-- Lower-case digits of `n` in base 16, as `operator<<` prints under `std::hex`. -/
def hex (n : Nat) : String := String.mk (Nat.toDigits 16 n)

/-- Digits of `n` in base 10, as `operator<<` prints under `std::dec`. -/
def dec (n : Nat) : String := String.mk (Nat.toDigits 10 n)

/-! ## The program -/

/-- The run loop `vcpu_thread`: one `__run_op` per round, the `switch` on
`run_op_ret(ret)`.  The list holds the values the successive `__run_op` calls
return; when it is used up the loop is still running. -/
def vcpu_thread (lib : Lib) (vcpuid : Nat) : List Nat → State → Res Unit
  | [], s => .running s
  | ret :: rets, s =>
    let s := s.emit (.run_op vcpuid)
    if lib.run_op_ret ret = lib.__enum_run_op__hlt then
      .ok () s
    else if lib.run_op_ret ret = lib.__enum_run_op__fault then
      let s := s.emit (.cerr ("[0x" ++ hex vcpuid ++ "] "))
      let s := s.emit (.cerr ("vcpu fault: " ++ dec (lib.run_op_arg ret) ++ "\n"))
      .ok () s
    else if lib.run_op_ret ret = lib.__enum_run_op__resume_after_interrupt then
      vcpu_thread lib vcpuid rets s
    else if lib.run_op_ret ret = lib.__enum_run_op__yield then
      let s := s.emit (.sleep_for (lib.run_op_arg ret))
      vcpu_thread lib vcpuid rets s
    else
      let s := s.emit (.cerr ("[0x" ++ hex vcpuid ++ "] "))
      let s := s.emit (.cerr ("unknown vcpu ret: " ++ dec (lib.run_op_ret ret) ++ "\n"))
      .ok () s

/-- The action of the guard in `attach_to_vm`: destroy the vcpu named by the
global `g_vcpuid`, and report a status other than `SUCCESS`. -/
def attach_to_vm_guard (lib : Lib) (w : World) (s : State) : State :=
  let s := s.emit (.destroy_vcpu s.g_vcpuid)
  if w.__vcpu_op__destroy_vcpu s.g_vcpuid ≠ lib.SUCCESS then
    s.emit (.cerr "__vcpu_op__destroy_vcpu failed\n")
  else
    s

/-- The function `attach_to_vm`: the guard is set up first, then the vcpu is
created, then the run loop is run on a thread that is joined at once, which is
a call.  The macro `attach_to_vm_verbose` (header `verbose.h`, not among the
sources) only prints and is left out. -/
def attach_to_vm (lib : Lib) (w : World) (_args : args_type) (s : State) : Res Nat :=
  finally_ (attach_to_vm_guard lib w) <|
    let s := s.emit (.create_vcpu s.g_domainid)
    let s := { s with g_vcpuid := w.__vcpu_op__create_vcpu s.g_domainid }
    if s.g_vcpuid = lib.INVALID_VCPUID then
      .throw (.exception "__vcpu_op__create_vcpu failed") s
    else
      match vcpu_thread lib s.g_vcpuid w.__run_op s with
      | .ok _ s => .ok EXIT_SUCCESS s
      | .throw e s => .throw e s
      | .running s => .running s

/-- The function `create_elf_vm`: build the request from the options and the
image, submit it, keep the domain id the driver wrote back.  The product
`file.size() * 2` is taken in 64 bits.  The macro `create_elf_vm_verbose` only
prints and is left out. -/
def create_elf_vm (lib : Lib) (w : World) (args : args_type) (s : State) : Res Unit :=
  match args.path with
  | none => .throw (.OptionException "must specify --path") s
  | some path =>
    let c := cmdl.empty
    match w.file path with
    | none => .throw (.exception "failed to open file") s
    | some file =>
      let size := (file.length * 2) % 2 ^ 64
      let size := match args.size with
        | some v => v
        | none => size
      let uart := 0
      let (uart, c) := match args.uart with
        | some v => (v, c.add ("console=uart,io," ++ lib.to_string v 16 ++ ",115200n8"))
        | none => (uart, c)
      let c := match args.init with
        | some v => c.add ("init=" ++ v)
        | none => c
      let c := match args.cmdline with
        | some v => c.add v
        | none => c
      let ioctl_args : create_from_elf_args :=
        { file := file
          file_size := file.length
          cmdl := c
          cmdl_size := c.size lib.cmdl_sep
          uart := uart
          size := size }
      let s := s.emit (.create_from_elf ioctl_args)
      match w.call_ioctl_create_from_elf ioctl_args with
      | none => .throw (.exception "ioctl failed") s
      | some domainid => .ok () { s with g_domainid := domainid }

/-- Modelled from the spec: `ioctl::call_ioctl_destroy` (header `ioctl.h`, not
among the sources).  The destroy request is issued for the domain; a failure of
the request is reported and does not change how the caller goes on. -/
def call_ioctl_destroy (domainid : Nat) (s : State) : State :=
  s.emit (.destroy domainid)

/-- The action of the guard in `protected_main`: destroy the domain named by the
global `g_domainid` when it was created from an image. -/
def protected_main_guard (args : args_type) (s : State) : State :=
  if args.elf then call_ioctl_destroy s.g_domainid s else s

/-- The first statement of `protected_main`: create the domain from the image
when `--elf` is given, else take the domain id of `--attach`; `as<domainid_t>()`
throws when the option has no value. -/
def protected_main_setup (lib : Lib) (w : World) (args : args_type) (s : State) : Res Unit :=
  if args.elf then
    create_elf_vm lib w args s
  else
    match args.attach with
    | some d => .ok () { s with g_domainid := d }
    | none => .throw (.exception "No value") s

/-- The function `protected_main`: the domain first, then the guard that
destroys it, then `attach_to_vm` inside that guard. -/
def protected_main (lib : Lib) (w : World) (args : args_type) (s : State) : Res Nat :=
  match protected_main_setup lib w args s with
  | .throw e s => .throw e s
  | .running s => .running s
  | .ok _ s => finally_ (protected_main_guard args) (attach_to_vm lib w args s)

/-- The function `main`, from the result of `parse_args` on: the options, or
the exception `parse_args` left by.  Every exception ends in one of the three
handlers and in `EXIT_FAILURE`. -/
def main (lib : Lib) (w : World) (parse_args : Except exn args_type) : Res Nat :=
  let r : Res Nat :=
    match parse_args with
    | .error e => .throw e State.init
    | .ok args => protected_main lib w args State.init
  match r with
  | .ok v s => .ok v s
  | .running s => .running s
  | .throw (.OptionException what) s =>
    .ok EXIT_FAILURE (s.emit (.cerr ("invalid arguments: " ++ what ++ "\n")))
  | .throw (.exception what) s =>
    .ok EXIT_FAILURE
      ((s.emit (.cerr "Caught unhandled exception:\n")).emit
        (.cerr ("    - what(): " ++ what ++ "\n")))
  | .throw .other s =>
    .ok EXIT_FAILURE (s.emit (.cerr "Caught unknown exception\n"))

/-! ## Sample instances -/

/-- Modelled from the spec: the names of `Lib` at sample values.  The spec
renders the uart port 0x3f8 as `3f8`, hence digits without prefix in lower
case; the numbers of the run-result encoding (kind in the low four bits,
argument above), the status constants and the blank between command line
fragments are samples, and no theorem below depends on them except where it
names `specLib`. -/
def specLib : Lib where
  run_op_ret := fun r => r % 16
  run_op_arg := fun r => r / 16
  __enum_run_op__hlt := 1
  __enum_run_op__fault := 2
  __enum_run_op__resume_after_interrupt := 3
  __enum_run_op__yield := 4
  INVALID_VCPUID := 2 ^ 64 - 1
  SUCCESS := 0
  to_string := fun v base => String.mk (Nat.toDigits base v)
  cmdl_sep := " "
  distinct := by decide

/-- Options of attach mode: `--attach d` and nothing else. -/
def attach_args (d : Nat) : args_type :=
  { elf := false, path := none, attach := some d, size := none, uart := none,
    init := none, cmdline := none }

/-- Options of image mode: `--elf --path p` and nothing else. -/
def elf_args (p : String) : args_type :=
  { elf := true, path := some p, attach := none, size := none, uart := none,
    init := none, cmdline := none }

/-- Options of image mode with a serial console: `--elf --path p --uart port`. -/
def uart_args (p : String) (port : Nat) : args_type :=
  { elf := true, path := some p, attach := none, size := none, uart := some port,
    init := none, cmdline := none }

/-- A sample world: every path holds the same four bytes, the driver answers
domain 7 to a creation request, `__vcpu_op__create_vcpu` returns `vcpuid`,
destroying a vcpu succeeds except for the invalid id, and `__run_op` returns
the values of `rets` one after the other. -/
def sample_world (vcpuid : Nat) (rets : List Nat) : World :=
  { file := fun _ => some [127, 69, 76, 70]
    call_ioctl_create_from_elf := fun _ => some 7
    __vcpu_op__create_vcpu := fun _ => vcpuid
    __vcpu_op__destroy_vcpu := fun v => if v = 2 ^ 64 - 1 then 1 else 0
    __run_op := rets }

/-! ## Vocabulary of the statements -/

/-- The result is Halt. -/
def is_hlt (lib : Lib) (ret : Nat) : Prop :=
  lib.run_op_ret ret = lib.__enum_run_op__hlt

/-- The result is Fault. -/
def is_fault (lib : Lib) (ret : Nat) : Prop :=
  lib.run_op_ret ret = lib.__enum_run_op__fault

/-- The result is ResumeAfterInterrupt. -/
def is_resume_after_interrupt (lib : Lib) (ret : Nat) : Prop :=
  lib.run_op_ret ret = lib.__enum_run_op__resume_after_interrupt

/-- The result is Yield. -/
def is_yield (lib : Lib) (ret : Nat) : Prop :=
  lib.run_op_ret ret = lib.__enum_run_op__yield

/-- The result has none of the four known codes. -/
def is_unknown (lib : Lib) (ret : Nat) : Prop :=
  ¬ is_hlt lib ret ∧ ¬ is_fault lib ret ∧
    ¬ is_resume_after_interrupt lib ret ∧ ¬ is_yield lib ret

/-- The result is not terminal: ResumeAfterInterrupt or Yield. -/
def continues (lib : Lib) (ret : Nat) : Prop :=
  is_resume_after_interrupt lib ret ∨ is_yield lib ret

/-- The result is terminal: Halt, Fault or an unrecognized code. -/
def terminal (lib : Lib) (ret : Nat) : Prop :=
  is_hlt lib ret ∨ is_fault lib ret ∨ is_unknown lib ret

instance (lib : Lib) (ret : Nat) : Decidable (is_hlt lib ret) := by
  unfold is_hlt; infer_instance

instance (lib : Lib) (ret : Nat) : Decidable (is_fault lib ret) := by
  unfold is_fault; infer_instance

instance (lib : Lib) (ret : Nat) : Decidable (is_resume_after_interrupt lib ret) := by
  unfold is_resume_after_interrupt; infer_instance

instance (lib : Lib) (ret : Nat) : Decidable (is_yield lib ret) := by
  unfold is_yield; infer_instance

instance (lib : Lib) (ret : Nat) : Decidable (is_unknown lib ret) := by
  unfold is_unknown; infer_instance

instance (lib : Lib) (ret : Nat) : Decidable (continues lib ret) := by
  unfold continues; infer_instance

instance (lib : Lib) (ret : Nat) : Decidable (terminal lib ret) := by
  unfold terminal; infer_instance

/-- The call returned, and what it returned is a non-zero exit status. -/
def exits_nonzero (r : Res Nat) : Prop :=
  match r.value with
  | some c => c ≠ 0
  | none => False

instance (r : Res Nat) : Decidable (exits_nonzero r) := by
  unfold exits_nonzero; split <;> infer_instance

/-- The event is a create-domain request. -/
def Event.is_create_from_elf : Event → Bool
  | .create_from_elf _ => true
  | _ => false

/-- The event is a destroy-domain request. -/
def Event.is_destroy : Event → Bool
  | .destroy _ => true
  | _ => false

/-- The event is a create-vcpu request. -/
def Event.is_create_vcpu : Event → Bool
  | .create_vcpu _ => true
  | _ => false

/-- The event is a destroy-vcpu request. -/
def Event.is_destroy_vcpu : Event → Bool
  | .destroy_vcpu _ => true
  | _ => false

/-- The event is a run-vcpu request. -/
def Event.is_run_op : Event → Bool
  | .run_op _ => true
  | _ => false

/-- The event is a request on the control channel, of any of the five kinds. -/
def Event.is_request : Event → Bool
  | .sleep_for _ => false
  | .cerr _ => false
  | _ => true

/-- The durations of the sleeps in a trace, in order. -/
def sleeps : List Event → List Nat
  | [] => []
  | .sleep_for us :: es => us :: sleeps es
  | _ :: es => sleeps es

/-- The durations carried by the Yield results of a list, in order. -/
def yield_durations (lib : Lib) : List Nat → List Nat
  | [] => []
  | ret :: rets =>
    if is_yield lib ret then lib.run_op_arg ret :: yield_durations lib rets
    else yield_durations lib rets

/-- The events of the rounds of the run loop on results that all continue. -/
def round_events (lib : Lib) (vcpuid : Nat) : List Nat → List Event
  | [] => []
  | ret :: rets =>
    if is_yield lib ret then
      .run_op vcpuid :: .sleep_for (lib.run_op_arg ret) :: round_events lib vcpuid rets
    else
      .run_op vcpuid :: round_events lib vcpuid rets

/-- The events of the last round of the run loop, on a terminal result. -/
def last_events (lib : Lib) (vcpuid : Nat) (ret : Nat) : List Event :=
  if is_hlt lib ret then
    [.run_op vcpuid]
  else if is_fault lib ret then
    [.run_op vcpuid, .cerr ("[0x" ++ hex vcpuid ++ "] "),
      .cerr ("vcpu fault: " ++ dec (lib.run_op_arg ret) ++ "\n")]
  else
    [.run_op vcpuid, .cerr ("[0x" ++ hex vcpuid ++ "] "),
      .cerr ("unknown vcpu ret: " ++ dec (lib.run_op_ret ret) ++ "\n")]

/-- The events of the guard of `attach_to_vm` for a vcpu id. -/
def guard_events (lib : Lib) (w : World) (vcpuid : Nat) : List Event :=
  if w.__vcpu_op__destroy_vcpu vcpuid ≠ lib.SUCCESS then
    [.destroy_vcpu vcpuid, .cerr "__vcpu_op__destroy_vcpu failed\n"]
  else
    [.destroy_vcpu vcpuid]

/-- The fragments `create_elf_vm` adds to the command line, option by option. -/
def cmdl_frags (lib : Lib) (args : args_type) : List String :=
  (match args.uart with
    | some v => ["console=uart,io," ++ lib.to_string v 16 ++ ",115200n8"]
    | none => []) ++
  (match args.init with
    | some v => ["init=" ++ v]
    | none => []) ++
  (match args.cmdline with
    | some v => [v]
    | none => [])

/-- The events of the guard of `protected_main` for a domain id. -/
def domain_guard_events (args : args_type) (domainid : Nat) : List Event :=
  if args.elf then [.destroy domainid] else []

/-! ## The run loop -/

theorem Lib.codes_ne (lib : Lib) :
    lib.__enum_run_op__hlt ≠ lib.__enum_run_op__fault ∧
    lib.__enum_run_op__hlt ≠ lib.__enum_run_op__resume_after_interrupt ∧
    lib.__enum_run_op__hlt ≠ lib.__enum_run_op__yield ∧
    lib.__enum_run_op__fault ≠ lib.__enum_run_op__resume_after_interrupt ∧
    lib.__enum_run_op__fault ≠ lib.__enum_run_op__yield ∧
    lib.__enum_run_op__resume_after_interrupt ≠ lib.__enum_run_op__yield := by
  have h := lib.distinct
  simp only [List.nodup_cons, List.mem_cons, List.mem_singleton, not_or,
    List.not_mem_nil, not_false_eq_true, List.nodup_nil, and_true] at h
  obtain ⟨⟨h1, h2, h3⟩, ⟨h4, h5⟩, h6⟩ := h
  exact ⟨h1, h2, h3, h4, h5, h6⟩

theorem terminal_iff_not_continues (lib : Lib) (ret : Nat) :
    terminal lib ret ↔ ¬ continues lib ret := by
  obtain ⟨h1, h2, h3, h4, h5, h6⟩ := lib.codes_ne
  unfold terminal continues is_unknown is_hlt is_fault is_resume_after_interrupt is_yield
  constructor
  · rintro (h | h | h)
    · rw [h]; exact not_or.mpr ⟨h2, h3⟩
    · rw [h]; exact not_or.mpr ⟨h4, h5⟩
    · exact not_or.mpr ⟨h.2.2.1, h.2.2.2⟩
  · intro h
    rw [not_or] at h
    by_cases a : lib.run_op_ret ret = lib.__enum_run_op__hlt
    · exact Or.inl a
    · by_cases b : lib.run_op_ret ret = lib.__enum_run_op__fault
      · exact Or.inr (Or.inl b)
      · exact Or.inr (Or.inr ⟨a, b, h.1, h.2⟩)

/-- One round on a result that continues: the request, the sleep of a Yield,
and the loop goes on with the next result. -/
theorem vcpu_thread_rounds (lib : Lib) (vcpuid : Nat) (pre rest : List Nat)
    (hpre : ∀ r ∈ pre, continues lib r) (s : State) :
    vcpu_thread lib vcpuid (pre ++ rest) s =
      vcpu_thread lib vcpuid rest
        { s with trace := s.trace ++ round_events lib vcpuid pre } := by
  obtain ⟨h1, h2, h3, h4, h5, h6⟩ := lib.codes_ne
  induction pre generalizing s with
  | nil => simp [round_events]
  | cons r pre ih =>
    have hr : continues lib r := hpre r (List.mem_cons_self _ _)
    have hrest : ∀ x ∈ pre, continues lib x := fun x hx => hpre x (List.mem_cons_of_mem _ hx)
    unfold continues is_resume_after_interrupt is_yield at hr
    rcases hr with hr | hr
    · have hy : ¬ is_yield lib r := by
        unfold is_yield; rw [hr]; exact h6
      rw [List.cons_append, vcpu_thread]
      simp only [hr, h2.symm, h4.symm, if_false, if_true, round_events, hy, State.emit]
      rw [ih hrest]
      simp
    · have hy : is_yield lib r := hr
      rw [List.cons_append, vcpu_thread]
      simp only [hr, h3.symm, h5.symm, h6.symm, if_false, if_true, round_events, hy,
        State.emit]
      rw [ih hrest]
      simp

/-- The last round, on a terminal result: the loop returns. -/
theorem vcpu_thread_last (lib : Lib) (vcpuid : Nat) (t : Nat) (post : List Nat)
    (ht : terminal lib t) (s : State) :
    vcpu_thread lib vcpuid (t :: post) s =
      .ok () { s with trace := s.trace ++ last_events lib vcpuid t } := by
  have hc := (terminal_iff_not_continues lib t).mp ht
  unfold continues is_resume_after_interrupt is_yield at hc
  rw [not_or] at hc
  by_cases a : lib.run_op_ret t = lib.__enum_run_op__hlt
  · simp [vcpu_thread, last_events, is_hlt, a, State.emit]
  · by_cases b : lib.run_op_ret t = lib.__enum_run_op__fault
    · have a2 : lib.__enum_run_op__fault ≠ lib.__enum_run_op__hlt := fun h => a (b.trans h)
      simp [vcpu_thread, last_events, is_hlt, is_fault, a2, b, State.emit]
    · simp [vcpu_thread, last_events, is_hlt, is_fault, a, b, hc.1, hc.2, State.emit]

/-- The run loop on results whose first terminal one is `t`. -/
theorem vcpu_thread_terminal (lib : Lib) (vcpuid : Nat) (pre : List Nat) (t : Nat)
    (post : List Nat) (hpre : ∀ r ∈ pre, continues lib r) (ht : terminal lib t)
    (s : State) :
    vcpu_thread lib vcpuid (pre ++ t :: post) s =
      .ok () { s with trace :=
        s.trace ++ (round_events lib vcpuid pre ++ last_events lib vcpuid t) } := by
  rw [vcpu_thread_rounds lib vcpuid pre (t :: post) hpre s, vcpu_thread_last lib vcpuid t post ht]
  simp

/-! ## `attach_to_vm` -/

/-- The trace and result of `attach_to_vm` when the vcpu is created and the run
results reach a terminal one. -/
theorem attach_to_vm_terminal (lib : Lib) (w : World) (args : args_type) (s : State)
    (pre : List Nat) (t : Nat) (post : List Nat)
    (hv : w.__vcpu_op__create_vcpu s.g_domainid ≠ lib.INVALID_VCPUID)
    (hrun : w.__run_op = pre ++ t :: post)
    (hpre : ∀ r ∈ pre, continues lib r) (ht : terminal lib t) :
    attach_to_vm lib w args s =
      .ok EXIT_SUCCESS
        { g_vcpuid := w.__vcpu_op__create_vcpu s.g_domainid
          g_domainid := s.g_domainid
          trace := s.trace ++ (.create_vcpu s.g_domainid ::
            (round_events lib (w.__vcpu_op__create_vcpu s.g_domainid) pre ++
              last_events lib (w.__vcpu_op__create_vcpu s.g_domainid) t ++
              guard_events lib w (w.__vcpu_op__create_vcpu s.g_domainid))) } := by
  unfold attach_to_vm
  simp only [State.emit, hv, if_false, hrun]
  rw [vcpu_thread_terminal lib _ pre t post hpre ht]
  simp only [finally_, attach_to_vm_guard, guard_events, State.emit]
  split <;> simp

/-- The trace and result of `attach_to_vm` when `__vcpu_op__create_vcpu` gives
the invalid id. -/
theorem attach_to_vm_invalid (lib : Lib) (w : World) (args : args_type) (s : State)
    (hv : w.__vcpu_op__create_vcpu s.g_domainid = lib.INVALID_VCPUID) :
    attach_to_vm lib w args s =
      .throw (.exception "__vcpu_op__create_vcpu failed")
        { g_vcpuid := lib.INVALID_VCPUID
          g_domainid := s.g_domainid
          trace := s.trace ++ (.create_vcpu s.g_domainid ::
            guard_events lib w lib.INVALID_VCPUID) } := by
  unfold attach_to_vm
  simp only [State.emit, hv, if_true, finally_, attach_to_vm_guard, guard_events]
  split <;> simp

/-- The run loop changes neither global and only appends run requests, sleeps
and diagnostics. -/
theorem vcpu_thread_frame (lib : Lib) (vcpuid : Nat) (rets : List Nat) (s : State) :
    ∃ added : List Event,
      (vcpu_thread lib vcpuid rets s).state =
        { s with trace := s.trace ++ added } ∧
      ∀ e ∈ added, e.is_create_from_elf = false ∧ e.is_destroy = false ∧
        e.is_create_vcpu = false ∧ e.is_destroy_vcpu = false := by
  induction rets generalizing s with
  | nil => exact ⟨[], by simp [vcpu_thread, Res.state], by simp⟩
  | cons r rets ih =>
    have hcls : ∀ e : Event, (e = .run_op vcpuid ∨ (∃ us, e = .sleep_for us) ∨ ∃ text, e = .cerr text) →
        e.is_create_from_elf = false ∧ e.is_destroy = false ∧
          e.is_create_vcpu = false ∧ e.is_destroy_vcpu = false := by
      rintro e (rfl | ⟨us, rfl⟩ | ⟨text, rfl⟩) <;>
        simp [Event.is_create_from_elf, Event.is_destroy, Event.is_create_vcpu,
          Event.is_destroy_vcpu]
    rw [vcpu_thread]
    split_ifs with a b c d
    · exact ⟨[.run_op vcpuid], by simp [Res.state, State.emit],
        fun e he => hcls e (Or.inl (List.mem_singleton.mp he))⟩
    · refine ⟨[.run_op vcpuid, .cerr ("[0x" ++ hex vcpuid ++ "] "),
          .cerr ("vcpu fault: " ++ dec (lib.run_op_arg r) ++ "\n")],
          by simp [Res.state, State.emit], fun e he => hcls e ?_⟩
      simp only [List.mem_cons, List.mem_singleton, List.not_mem_nil, or_false] at he
      rcases he with rfl | rfl | rfl
      · exact Or.inl rfl
      · exact Or.inr (Or.inr ⟨_, rfl⟩)
      · exact Or.inr (Or.inr ⟨_, rfl⟩)
    · obtain ⟨added, h1, h2⟩ := ih (s.emit (.run_op vcpuid))
      refine ⟨.run_op vcpuid :: added, ?_, ?_⟩
      · rw [h1]; simp [State.emit]
      · intro e he
        rcases List.mem_cons.mp he with rfl | he
        · exact hcls _ (Or.inl rfl)
        · exact h2 e he
    · obtain ⟨added, h1, h2⟩ :=
        ih ((s.emit (.run_op vcpuid)).emit (.sleep_for (lib.run_op_arg r)))
      refine ⟨.run_op vcpuid :: .sleep_for (lib.run_op_arg r) :: added, ?_, ?_⟩
      · rw [h1]; simp [State.emit]
      · intro e he
        rcases List.mem_cons.mp he with rfl | he
        · exact hcls _ (Or.inl rfl)
        · rcases List.mem_cons.mp he with rfl | he
          · exact hcls _ (Or.inr (Or.inl ⟨_, rfl⟩))
          · exact h2 e he
    · refine ⟨[.run_op vcpuid, .cerr ("[0x" ++ hex vcpuid ++ "] "),
          .cerr ("unknown vcpu ret: " ++ dec (lib.run_op_ret r) ++ "\n")],
          by simp [Res.state, State.emit], fun e he => hcls e ?_⟩
      simp only [List.mem_cons, List.mem_singleton, List.not_mem_nil, or_false] at he
      rcases he with rfl | rfl | rfl
      · exact Or.inl rfl
      · exact Or.inr (Or.inr ⟨_, rfl⟩)
      · exact Or.inr (Or.inr ⟨_, rfl⟩)

/-- The run loop never leaves by an exception. -/
theorem vcpu_thread_no_throw (lib : Lib) (vcpuid : Nat) (rets : List Nat) (s : State)
    (e : exn) (s1 : State) : vcpu_thread lib vcpuid rets s ≠ .throw e s1 := by
  induction rets generalizing s with
  | nil => simp [vcpu_thread]
  | cons r rets ih =>
    rw [vcpu_thread]
    split_ifs
    · simp
    · simp
    · exact ih _
    · exact ih _
    · simp

/-! ## `create_elf_vm` -/

/-- With the path given and the image loaded, `create_elf_vm` submits one
request, described field by field, and ends as the driver answers. -/
theorem create_elf_vm_loaded (lib : Lib) (w : World) (args : args_type) (s : State)
    (p : String) (img : List Nat) (hp : args.path = some p) (hf : w.file p = some img) :
    ∃ r : create_from_elf_args,
      r.file = img ∧ r.file_size = img.length ∧
      r.size = (match args.size with
        | some v => v
        | none => 2 * img.length % 2 ^ 64) ∧
      r.uart = (match args.uart with
        | some v => v
        | none => 0) ∧
      r.cmdl.frags = cmdl_frags lib args ∧
      r.cmdl_size = r.cmdl.size lib.cmdl_sep ∧
      create_elf_vm lib w args s =
        (match w.call_ioctl_create_from_elf r with
          | none => .throw (.exception "ioctl failed") (s.emit (.create_from_elf r))
          | some d => .ok () { s.emit (.create_from_elf r) with g_domainid := d }) := by
  unfold create_elf_vm
  simp only [hp, hf]
  refine ⟨_, ?_, ?_, ?_, ?_, ?_, ?_, rfl⟩
  · rfl
  · rfl
  · cases args.size <;> simp [Nat.mul_comm]
  · cases args.uart <;> rfl
  · unfold cmdl_frags
    cases args.uart <;> cases args.init <;> cases args.cmdline <;>
      simp [cmdl.add, cmdl.empty]
  · rfl

/-- A call of `create_elf_vm` that returns had the path and loaded the image. -/
theorem create_elf_vm_ok_loaded (lib : Lib) (w : World) (args : args_type) (s s1 : State)
    (h : create_elf_vm lib w args s = .ok () s1) :
    ∃ p img, args.path = some p ∧ w.file p = some img := by
  unfold create_elf_vm at h
  cases hp : args.path with
  | none => simp [hp] at h
  | some p =>
    cases hf : w.file p with
    | none => simp [hp, hf] at h
    | some img => exact ⟨p, img, rfl, hf⟩

/-- A call of `create_elf_vm` that returns has submitted one request, and kept
the domain id the driver answered to it. -/
theorem create_elf_vm_ok (lib : Lib) (w : World) (args : args_type) (s s1 : State)
    (h : create_elf_vm lib w args s = .ok () s1) :
    ∃ r, w.call_ioctl_create_from_elf r = some s1.g_domainid ∧
      s1 = { g_vcpuid := s.g_vcpuid, g_domainid := s1.g_domainid,
             trace := s.trace ++ [.create_from_elf r] } := by
  obtain ⟨p, img, hp, hf⟩ := create_elf_vm_ok_loaded lib w args s s1 h
  obtain ⟨r, -, -, -, -, -, -, hr⟩ := create_elf_vm_loaded lib w args s p img hp hf
  rw [hr] at h
  cases hd : w.call_ioctl_create_from_elf r with
  | none => simp [hd] at h
  | some d =>
    simp only [hd, Res.ok.injEq, true_and] at h
    subst h
    exact ⟨r, by simp [hd], by simp [State.emit]⟩

/-! ## `protected_main` and `main` -/

/-- What the first statement of `protected_main` leaves when it succeeds: the
vcpu global untouched, and either one create-domain request (image mode) or no
event at all and the id of `--attach` (attach mode). -/
theorem protected_main_setup_ok (lib : Lib) (w : World) (args : args_type) (s s1 : State)
    (h : protected_main_setup lib w args s = .ok () s1) :
    s1.g_vcpuid = s.g_vcpuid ∧
    ((args.elf = true ∧ ∃ r, w.call_ioctl_create_from_elf r = some s1.g_domainid ∧
        s1.trace = s.trace ++ [.create_from_elf r]) ∨
     (args.elf = false ∧ args.attach = some s1.g_domainid ∧ s1.trace = s.trace)) := by
  unfold protected_main_setup at h
  cases he : args.elf with
  | true =>
    simp only [he, if_true] at h
    obtain ⟨r, hr, hs⟩ := create_elf_vm_ok lib w args s s1 h
    rw [hs]
    exact ⟨rfl, Or.inl ⟨rfl, r, hr, rfl⟩⟩
  | false =>
    simp only [he] at h
    cases ha : args.attach with
    | none => simp [ha] at h
    | some d =>
      simp only [ha, Bool.false_eq_true, if_false, Res.ok.injEq, true_and] at h
      subst h
      exact ⟨rfl, Or.inr ⟨rfl, rfl, rfl⟩⟩

/-- The result of `protected_main` when setup and create-vcpu succeed and the
run results reach a terminal one. -/
theorem protected_main_terminal (lib : Lib) (w : World) (args : args_type) (s s1 : State)
    (pre : List Nat) (t : Nat) (post : List Nat)
    (hsetup : protected_main_setup lib w args s = .ok () s1)
    (hv : w.__vcpu_op__create_vcpu s1.g_domainid ≠ lib.INVALID_VCPUID)
    (hrun : w.__run_op = pre ++ t :: post)
    (hpre : ∀ r ∈ pre, continues lib r) (ht : terminal lib t) :
    protected_main lib w args s =
      .ok EXIT_SUCCESS
        { g_vcpuid := w.__vcpu_op__create_vcpu s1.g_domainid
          g_domainid := s1.g_domainid
          trace := s1.trace ++ (.create_vcpu s1.g_domainid ::
            (round_events lib (w.__vcpu_op__create_vcpu s1.g_domainid) pre ++
              last_events lib (w.__vcpu_op__create_vcpu s1.g_domainid) t ++
              guard_events lib w (w.__vcpu_op__create_vcpu s1.g_domainid))) ++
            domain_guard_events args s1.g_domainid } := by
  unfold protected_main
  rw [hsetup]
  simp only
  rw [attach_to_vm_terminal lib w args s1 pre t post hv hrun hpre ht]
  simp only [finally_, protected_main_guard, domain_guard_events, call_ioctl_destroy,
    State.emit]
  split <;> simp

/-- The result of `protected_main` when setup succeeds and create-vcpu gives
the invalid id. -/
theorem protected_main_invalid (lib : Lib) (w : World) (args : args_type) (s s1 : State)
    (hsetup : protected_main_setup lib w args s = .ok () s1)
    (hv : w.__vcpu_op__create_vcpu s1.g_domainid = lib.INVALID_VCPUID) :
    protected_main lib w args s =
      .throw (.exception "__vcpu_op__create_vcpu failed")
        { g_vcpuid := lib.INVALID_VCPUID
          g_domainid := s1.g_domainid
          trace := s1.trace ++ (.create_vcpu s1.g_domainid ::
            guard_events lib w lib.INVALID_VCPUID) ++
            domain_guard_events args s1.g_domainid } := by
  unfold protected_main
  rw [hsetup]
  simp only
  rw [attach_to_vm_invalid lib w args s1 hv]
  simp only [finally_, protected_main_guard, domain_guard_events, call_ioctl_destroy,
    State.emit]
  split <;> simp

/-! ## Events of the run loop, by kind -/

theorem sleeps_append (a b : List Event) : sleeps (a ++ b) = sleeps a ++ sleeps b := by
  induction a with
  | nil => rfl
  | cons e a ih => cases e <;> simp [sleeps, ih]

theorem round_events_mem (lib : Lib) (vcpuid : Nat) (pre : List Nat) (e : Event)
    (he : e ∈ round_events lib vcpuid pre) :
    e = .run_op vcpuid ∨ ∃ us, e = .sleep_for us := by
  induction pre with
  | nil => simp [round_events] at he
  | cons r pre ih =>
    unfold round_events at he
    split_ifs at he
    · rcases List.mem_cons.mp he with rfl | he
      · exact Or.inl rfl
      · rcases List.mem_cons.mp he with rfl | he
        · exact Or.inr ⟨_, rfl⟩
        · exact ih he
    · rcases List.mem_cons.mp he with rfl | he
      · exact Or.inl rfl
      · exact ih he

theorem last_events_mem (lib : Lib) (vcpuid t : Nat) (e : Event)
    (he : e ∈ last_events lib vcpuid t) :
    e = .run_op vcpuid ∨ ∃ text, e = .cerr text := by
  unfold last_events at he
  split_ifs at he <;>
    simp only [List.mem_cons, List.mem_singleton, List.not_mem_nil, or_false] at he
  · exact Or.inl he
  · rcases he with rfl | rfl | rfl
    · exact Or.inl rfl
    · exact Or.inr ⟨_, rfl⟩
    · exact Or.inr ⟨_, rfl⟩
  · rcases he with rfl | rfl | rfl
    · exact Or.inl rfl
    · exact Or.inr ⟨_, rfl⟩
    · exact Or.inr ⟨_, rfl⟩

theorem round_events_run_ops (lib : Lib) (vcpuid : Nat) (pre : List Nat) :
    (round_events lib vcpuid pre).filter Event.is_run_op =
      List.replicate pre.length (.run_op vcpuid) := by
  induction pre with
  | nil => rfl
  | cons r pre ih =>
    unfold round_events
    split_ifs <;> simp [List.filter_cons, Event.is_run_op, ih, List.replicate_succ]

theorem round_events_sleeps (lib : Lib) (vcpuid : Nat) (pre : List Nat) :
    sleeps (round_events lib vcpuid pre) = yield_durations lib pre := by
  induction pre with
  | nil => rfl
  | cons r pre ih =>
    unfold round_events yield_durations
    split_ifs <;> simp [sleeps, ih]

theorem last_events_run_ops (lib : Lib) (vcpuid t : Nat) :
    (last_events lib vcpuid t).filter Event.is_run_op = [.run_op vcpuid] := by
  unfold last_events
  split_ifs <;> simp [List.filter_cons, Event.is_run_op]

theorem last_events_sleeps (lib : Lib) (vcpuid t : Nat) :
    sleeps (last_events lib vcpuid t) = [] := by
  unfold last_events
  split_ifs <;> simp [sleeps]

theorem run_ops_mem (lib : Lib) (vcpuid : Nat) (pre : List Nat) (t : Nat) (e : Event)
    (he : e ∈ round_events lib vcpuid pre ++ last_events lib vcpuid t) :
    e = .run_op vcpuid ∨ (∃ us, e = .sleep_for us) ∨ ∃ text, e = .cerr text := by
  rcases List.mem_append.mp he with he | he
  · rcases round_events_mem lib vcpuid pre e he with h | h
    · exact Or.inl h
    · exact Or.inr (Or.inl h)
  · rcases last_events_mem lib vcpuid t e he with h | h
    · exact Or.inl h
    · exact Or.inr (Or.inr h)

/-! ## Guards and `main` -/

theorem guard_events_eq (lib : Lib) (w : World) (vcpuid : Nat) :
    ∃ tail : List Event, guard_events lib w vcpuid = .destroy_vcpu vcpuid :: tail ∧
      ∀ e ∈ tail, ∃ text, e = .cerr text := by
  unfold guard_events
  split_ifs
  · exact ⟨[.cerr "__vcpu_op__destroy_vcpu failed\n"], rfl,
      fun e he => ⟨_, List.mem_singleton.mp he⟩⟩
  · exact ⟨[], rfl, fun e he => absurd he (List.not_mem_nil e)⟩

theorem main_of_ok (lib : Lib) (w : World) (args : args_type) (v : Nat) (s : State)
    (h : protected_main lib w args State.init = .ok v s) :
    main lib w (.ok args) = .ok v s := by
  unfold main
  simp only [h]

theorem main_of_exception (lib : Lib) (w : World) (args : args_type) (what : String)
    (s : State) (h : protected_main lib w args State.init = .throw (.exception what) s) :
    main lib w (.ok args) =
      .ok EXIT_FAILURE
        { s with trace := s.trace ++ [.cerr "Caught unhandled exception:\n",
            .cerr ("    - what(): " ++ what ++ "\n")] } := by
  unfold main
  simp only [h, State.emit, List.append_assoc, List.singleton_append]

/-- What `main` adds to the trace of `protected_main` is diagnostics only. -/
theorem main_trace (lib : Lib) (w : World) (args : args_type) :
    ∃ errs : List Event,
      (main lib w (.ok args)).state.trace =
        (protected_main lib w args State.init).state.trace ++ errs ∧
      ∀ e ∈ errs, ∃ text, e = .cerr text := by
  unfold main
  cases h : protected_main lib w args State.init with
  | ok v s => exact ⟨[], by simp [h, Res.state], by simp⟩
  | running s => exact ⟨[], by simp [h, Res.state], by simp⟩
  | throw e s =>
    cases e with
    | OptionException what =>
      exact ⟨[.cerr ("invalid arguments: " ++ what ++ "\n")], by simp [h, Res.state, State.emit],
        fun e he => ⟨_, List.mem_singleton.mp he⟩⟩
    | exception what =>
      refine ⟨[.cerr "Caught unhandled exception:\n", .cerr ("    - what(): " ++ what ++ "\n")],
        by simp [h, Res.state, State.emit], fun e he => ?_⟩
      simp only [List.mem_cons, List.mem_singleton, List.not_mem_nil, or_false] at he
      rcases he with rfl | rfl
      · exact ⟨_, rfl⟩
      · exact ⟨_, rfl⟩
    | other =>
      exact ⟨[.cerr "Caught unknown exception\n"], by simp [h, Res.state, State.emit],
        fun e he => ⟨_, List.mem_singleton.mp he⟩⟩

/-- Whatever the run results, `attach_to_vm` first issues the create-vcpu
request for the domain of `g_domainid`, and afterwards neither another one nor
any request about a domain. -/
theorem attach_to_vm_frame (lib : Lib) (w : World) (args : args_type) (s : State) :
    ∃ added : List Event,
      (attach_to_vm lib w args s).state.trace =
        s.trace ++ .create_vcpu s.g_domainid :: added ∧
      ∀ e ∈ added, e.is_create_from_elf = false ∧ e.is_destroy = false ∧
        e.is_create_vcpu = false := by
  have hcls : ∀ e : Event, (∃ text, e = .cerr text) →
      e.is_create_from_elf = false ∧ e.is_destroy = false ∧ e.is_create_vcpu = false := by
    rintro e ⟨text, rfl⟩
    exact ⟨rfl, rfl, rfl⟩
  have hguard : ∀ v, ∀ e ∈ guard_events lib w v,
      e.is_create_from_elf = false ∧ e.is_destroy = false ∧ e.is_create_vcpu = false := by
    intro v e he
    obtain ⟨tail, htail, hc⟩ := guard_events_eq lib w v
    rw [htail] at he
    rcases List.mem_cons.mp he with rfl | he
    · exact ⟨rfl, rfl, rfl⟩
    · exact hcls e (hc e he)
  by_cases hv : w.__vcpu_op__create_vcpu s.g_domainid = lib.INVALID_VCPUID
  · rw [attach_to_vm_invalid lib w args s hv]
    exact ⟨guard_events lib w lib.INVALID_VCPUID, rfl, hguard _⟩
  · unfold attach_to_vm
    simp only [State.emit, hv, if_false]
    obtain ⟨added, hst, hadd⟩ := vcpu_thread_frame lib (w.__vcpu_op__create_vcpu s.g_domainid)
      w.__run_op
      { g_vcpuid := w.__vcpu_op__create_vcpu s.g_domainid, g_domainid := s.g_domainid,
        trace := s.trace ++ [.create_vcpu s.g_domainid] }
    cases hres : vcpu_thread lib (w.__vcpu_op__create_vcpu s.g_domainid) w.__run_op
      { g_vcpuid := w.__vcpu_op__create_vcpu s.g_domainid, g_domainid := s.g_domainid,
        trace := s.trace ++ [.create_vcpu s.g_domainid] } with
    | ok u s2 =>
      rw [hres] at hst
      simp only [Res.state] at hst
      subst hst
      refine ⟨added ++ guard_events lib w (w.__vcpu_op__create_vcpu s.g_domainid), ?_, ?_⟩
      · simp only [finally_, attach_to_vm_guard, guard_events, State.emit, Res.state]
        split <;> simp
      · intro e he
        rcases List.mem_append.mp he with he | he
        · exact ⟨(hadd e he).1, (hadd e he).2.1, (hadd e he).2.2.1⟩
        · exact hguard _ e he
    | throw x s2 => exact absurd hres (vcpu_thread_no_throw lib _ _ _ x s2)
    | running s2 =>
      rw [hres] at hst
      simp only [Res.state] at hst
      subst hst
      refine ⟨added, ?_, ?_⟩
      · simp [finally_, Res.state]
      · intro e he
        exact ⟨(hadd e he).1, (hadd e he).2.1, (hadd e he).2.2.1⟩

/-- After a successful first statement of `protected_main` at program start,
the trace holds at most create-domain requests. -/
theorem protected_main_setup_trace (lib : Lib) (w : World) (args : args_type) (s1 : State)
    (h : protected_main_setup lib w args State.init = .ok () s1) :
    ∀ e ∈ s1.trace, ∃ r, e = .create_from_elf r := by
  obtain ⟨-, ⟨-, r, -, hr⟩ | ⟨-, -, hr⟩⟩ := protected_main_setup_ok lib w args State.init s1 h
  · intro e he
    rw [hr] at he
    simp only [State.init, List.nil_append, List.mem_singleton] at he
    exact ⟨r, he⟩
  · intro e he
    rw [hr] at he
    simp [State.init] at he

theorem filter_eq_nil_of_forall {p : Event → Bool} {l : List Event}
    (h : ∀ e ∈ l, p e = false) : l.filter p = [] := by
  rw [List.filter_eq_nil_iff]
  intro e he
  simp [h e he]

theorem intercalate_singleton (sep a : String) : sep.intercalate [a] = a := by
  simp [String.intercalate, String.intercalate.go]

/-! ## The claims -/

/-- C10. On results whose first terminal one (Halt, Fault or unrecognized code)
stands at index `k = pre.length`, the run loop `vcpu_thread` returns, having
issued exactly `k + 1` run-vcpu requests and no destroy-vcpu request, and its
sleeps are, in order, the durations of the Yield results before the terminal
one. -/
theorem vcpu_thread_requests_and_sleeps (lib : Lib) (vcpuid : Nat) (pre : List Nat)
    (t : Nat) (post : List Nat) (s : State)
    (hpre : ∀ r ∈ pre, continues lib r) (ht : terminal lib t) :
    ∃ added : List Event,
      vcpu_thread lib vcpuid (pre ++ t :: post) s =
        .ok () { s with trace := s.trace ++ added } ∧
      added.filter Event.is_run_op = List.replicate (pre.length + 1) (.run_op vcpuid) ∧
      (∀ e ∈ added, e.is_destroy_vcpu = false) ∧
      sleeps added = yield_durations lib pre := by
  refine ⟨round_events lib vcpuid pre ++ last_events lib vcpuid t,
    vcpu_thread_terminal lib vcpuid pre t post hpre ht s, ?_, ?_, ?_⟩
  · rw [List.filter_append, round_events_run_ops, last_events_run_ops,
      List.replicate_succ']
  · intro e he
    rcases run_ops_mem lib vcpuid pre t e he with rfl | ⟨us, rfl⟩ | ⟨text, rfl⟩ <;> rfl
  · rw [sleeps_append, round_events_sleeps, last_events_sleeps, List.append_nil]

/-- C10, witness: the results Yield 500 then Halt give two run-vcpu requests
and the single sleep of 500 microseconds. -/
theorem vcpu_thread_requests_and_sleeps_witness :
    (∃ added : List Event,
      vcpu_thread specLib 5 ([500 * 16 + 4] ++ 1 :: []) State.init =
        .ok () { State.init with trace := State.init.trace ++ added } ∧
      added.filter Event.is_run_op = List.replicate (1 + 1) (.run_op 5) ∧
      (∀ e ∈ added, e.is_destroy_vcpu = false) ∧
      sleeps added = yield_durations specLib [500 * 16 + 4]) ∧
    yield_durations specLib [500 * 16 + 4] = [500] ∧
    vcpu_thread specLib 5 [500 * 16 + 4, 1] State.init =
      .ok () ⟨0, 0, [.run_op 5, .sleep_for 500, .run_op 5]⟩ :=
  ⟨vcpu_thread_requests_and_sleeps specLib 5 [500 * 16 + 4] 1 [] State.init
    (by decide) (by decide), by decide, by decide⟩

/-- C2. With domain setup and create-vcpu succeeding, on run results whose first
terminal one is Halt, `protected_main` returns exit status 0, and so does
`main`. -/
theorem halt_exit_status (lib : Lib) (w : World) (args : args_type) (s1 : State)
    (pre : List Nat) (t : Nat) (post : List Nat)
    (hsetup : protected_main_setup lib w args State.init = .ok () s1)
    (hv : w.__vcpu_op__create_vcpu s1.g_domainid ≠ lib.INVALID_VCPUID)
    (hrun : w.__run_op = pre ++ t :: post)
    (hpre : ∀ r ∈ pre, continues lib r) (ht : is_hlt lib t) :
    (protected_main lib w args State.init).value = some 0 ∧
    (main lib w (.ok args)).value = some 0 := by
  have h := protected_main_terminal lib w args State.init s1 pre t post hsetup hv hrun hpre
    (Or.inl ht)
  rw [main_of_ok lib w args _ _ h, h]
  exact ⟨rfl, rfl⟩

/-- C2, witness: attach mode on domain 42, results Yield 500 then Halt. -/
theorem halt_exit_status_witness :
    (protected_main specLib (sample_world 5 [500 * 16 + 4, 1]) (attach_args 42)
      State.init).value = some 0 ∧
    (main specLib (sample_world 5 [500 * 16 + 4, 1]) (.ok (attach_args 42))).value = some 0 :=
  halt_exit_status specLib (sample_world 5 [500 * 16 + 4, 1]) (attach_args 42) ⟨0, 42, []⟩
    [500 * 16 + 4] 1 [] (by decide) (by decide) (by decide) (by decide) (by decide)

/-- C1, as the code has it. With domain setup and create-vcpu succeeding, on run
results whose first terminal one is a Fault or an unrecognized code,
`protected_main` returns `EXIT_SUCCESS`, `main` returns exit status 0, and the
fault or the unrecognized code is reported on the error stream. -/
theorem fault_exit_status (lib : Lib) (w : World) (args : args_type) (s1 : State)
    (pre : List Nat) (t : Nat) (post : List Nat)
    (hsetup : protected_main_setup lib w args State.init = .ok () s1)
    (hv : w.__vcpu_op__create_vcpu s1.g_domainid ≠ lib.INVALID_VCPUID)
    (hrun : w.__run_op = pre ++ t :: post)
    (hpre : ∀ r ∈ pre, continues lib r) (ht : is_fault lib t ∨ is_unknown lib t) :
    (protected_main lib w args State.init).value = some EXIT_SUCCESS ∧
    (main lib w (.ok args)).value = some 0 ∧
    (is_fault lib t →
      Event.cerr ("vcpu fault: " ++ dec (lib.run_op_arg t) ++ "\n") ∈
        (main lib w (.ok args)).state.trace) ∧
    (is_unknown lib t →
      Event.cerr ("unknown vcpu ret: " ++ dec (lib.run_op_ret t) ++ "\n") ∈
        (main lib w (.ok args)).state.trace) := by
  have h := protected_main_terminal lib w args State.init s1 pre t post hsetup hv hrun hpre
    (Or.inr ht)
  rw [main_of_ok lib w args _ _ h, h]
  refine ⟨rfl, rfl, ?_, ?_⟩
  · intro hf
    have hh : ¬ is_hlt lib t := by
      unfold is_hlt; unfold is_fault at hf; rw [hf]; exact fun e => lib.codes_ne.1 e.symm
    simp [Res.state, last_events, hf, hh]
  · intro hu
    simp [Res.state, last_events, hu.1, hu.2.1]

/-- C1, witness: attach mode on domain 42, one Fault result with reason 7. -/
theorem fault_exit_status_witness :
    (protected_main specLib (sample_world 5 [7 * 16 + 2]) (attach_args 42)
      State.init).value = some EXIT_SUCCESS ∧
    (main specLib (sample_world 5 [7 * 16 + 2]) (.ok (attach_args 42))).value = some 0 ∧
    (is_fault specLib (7 * 16 + 2) →
      Event.cerr ("vcpu fault: " ++ dec (specLib.run_op_arg (7 * 16 + 2)) ++ "\n") ∈
        (main specLib (sample_world 5 [7 * 16 + 2]) (.ok (attach_args 42))).state.trace) ∧
    (is_unknown specLib (7 * 16 + 2) →
      Event.cerr ("unknown vcpu ret: " ++ dec (specLib.run_op_ret (7 * 16 + 2)) ++ "\n") ∈
        (main specLib (sample_world 5 [7 * 16 + 2]) (.ok (attach_args 42))).state.trace) :=
  fault_exit_status specLib (sample_world 5 [7 * 16 + 2]) (attach_args 42) ⟨0, 42, []⟩
    [] (7 * 16 + 2) [] (by decide) (by decide) (by decide) (by decide) (by decide)

/-- C1, counterexample to the claim as stated: in attach mode on domain 42, with
create-vcpu giving vcpu 5 and the single run result a Fault with reason 7, the
exit status of `main` is 0, not a non-zero one. -/
theorem fault_exit_status_counterexample :
    protected_main_setup specLib (sample_world 5 [7 * 16 + 2]) (attach_args 42) State.init =
      .ok () ⟨0, 42, []⟩ ∧
    (sample_world 5 [7 * 16 + 2]).__vcpu_op__create_vcpu 42 ≠ specLib.INVALID_VCPUID ∧
    is_fault specLib (7 * 16 + 2) ∧
    (main specLib (sample_world 5 [7 * 16 + 2]) (.ok (attach_args 42))).value = some 0 ∧
    ¬ exits_nonzero (main specLib (sample_world 5 [7 * 16 + 2]) (.ok (attach_args 42))) ∧
    ¬ exits_nonzero
      (protected_main specLib (sample_world 5 [7 * 16 + 2]) (attach_args 42) State.init) := by
  decide

/-- C3. With domain setup and create-vcpu succeeding, on run results that reach
a terminal one, the trace of `protected_main` splits around its one destroy-vcpu
request: before it stand all the run-vcpu requests and no destroy request of
either kind; after it stands no run-vcpu request, no further destroy-vcpu
request, and exactly one destroy-domain request when the domain was created
from an image (none in attach mode). -/
theorem destroy_requests_once_in_order (lib : Lib) (w : World) (args : args_type)
    (s1 : State) (pre : List Nat) (t : Nat) (post : List Nat)
    (hsetup : protected_main_setup lib w args State.init = .ok () s1)
    (hv : w.__vcpu_op__create_vcpu s1.g_domainid ≠ lib.INVALID_VCPUID)
    (hrun : w.__run_op = pre ++ t :: post)
    (hpre : ∀ r ∈ pre, continues lib r) (ht : terminal lib t) :
    ∃ t1 t2 : List Event,
      (protected_main lib w args State.init).state.trace =
        t1 ++ .destroy_vcpu (w.__vcpu_op__create_vcpu s1.g_domainid) :: t2 ∧
      (∀ e ∈ t1, e.is_destroy_vcpu = false ∧ e.is_destroy = false) ∧
      t1.filter Event.is_run_op =
        List.replicate (pre.length + 1) (.run_op (w.__vcpu_op__create_vcpu s1.g_domainid)) ∧
      (∀ e ∈ t2, e.is_destroy_vcpu = false ∧ e.is_run_op = false) ∧
      t2.filter Event.is_destroy =
        (if args.elf then [.destroy s1.g_domainid] else []) := by
  have h := protected_main_terminal lib w args State.init s1 pre t post hsetup hv hrun hpre ht
  have hs1 := protected_main_setup_trace lib w args s1 hsetup
  obtain ⟨tail, hG, hc⟩ := guard_events_eq lib w (w.__vcpu_op__create_vcpu s1.g_domainid)
  refine ⟨s1.trace ++ .create_vcpu s1.g_domainid ::
      (round_events lib (w.__vcpu_op__create_vcpu s1.g_domainid) pre ++
        last_events lib (w.__vcpu_op__create_vcpu s1.g_domainid) t),
    tail ++ domain_guard_events args s1.g_domainid, ?_, ?_, ?_, ?_, ?_⟩
  · rw [h, hG]
    simp [Res.state]
  · intro e he
    rcases List.mem_append.mp he with he | he
    · obtain ⟨r, rfl⟩ := hs1 e he
      exact ⟨rfl, rfl⟩
    · rcases List.mem_cons.mp he with rfl | he
      · exact ⟨rfl, rfl⟩
      · rcases run_ops_mem lib _ pre t e he with rfl | ⟨us, rfl⟩ | ⟨text, rfl⟩ <;>
          exact ⟨rfl, rfl⟩
  · have h0 : s1.trace.filter Event.is_run_op = [] :=
      filter_eq_nil_of_forall (fun e he => by obtain ⟨r, rfl⟩ := hs1 e he; rfl)
    rw [List.filter_append, h0, List.nil_append, List.filter_cons]
    simp only [Event.is_run_op, Bool.false_eq_true, if_false]
    rw [List.filter_append, round_events_run_ops, last_events_run_ops, List.replicate_succ']
  · intro e he
    rcases List.mem_append.mp he with he | he
    · obtain ⟨text, rfl⟩ := hc e he
      exact ⟨rfl, rfl⟩
    · unfold domain_guard_events at he
      split_ifs at he
      · rw [List.mem_singleton.mp he]
        exact ⟨rfl, rfl⟩
      · exact absurd he (List.not_mem_nil e)
  · have h0 : tail.filter Event.is_destroy = [] :=
      filter_eq_nil_of_forall (fun e he => by obtain ⟨text, rfl⟩ := hc e he; rfl)
    rw [List.filter_append, h0, List.nil_append]
    unfold domain_guard_events
    split_ifs <;> simp [List.filter_cons, Event.is_destroy]

/-- C3, witness: image mode, results Yield 500 then Halt. -/
theorem destroy_requests_once_in_order_witness :
    ∃ t1 t2 : List Event,
      (protected_main specLib (sample_world 5 [500 * 16 + 4, 1]) (elf_args "vmlinux")
        State.init).state.trace =
        t1 ++ .destroy_vcpu ((sample_world 5 [500 * 16 + 4, 1]).__vcpu_op__create_vcpu 7) :: t2 ∧
      (∀ e ∈ t1, e.is_destroy_vcpu = false ∧ e.is_destroy = false) ∧
      t1.filter Event.is_run_op = List.replicate (1 + 1) (.run_op 5) ∧
      (∀ e ∈ t2, e.is_destroy_vcpu = false ∧ e.is_run_op = false) ∧
      t2.filter Event.is_destroy = [.destroy 7] :=
  destroy_requests_once_in_order specLib (sample_world 5 [500 * 16 + 4, 1])
    (elf_args "vmlinux")
    ⟨0, 7, [.create_from_elf ⟨[127, 69, 76, 70], 4, ⟨[]⟩, 0, 0, 8⟩]⟩
    [500 * 16 + 4] 1 [] (by decide) (by decide) (by decide) (by decide) (by decide)

/-- C4, the code at the failing input: in attach mode on domain 42, when
`__vcpu_op__create_vcpu` gives the invalid id, the trace holds a destroy-vcpu
request, for the invalid id, right after the failed create-vcpu request. -/
theorem invalid_vcpu_destroy_request :
    (protected_main specLib (sample_world (2 ^ 64 - 1) [1]) (attach_args 42)
      State.init).state.trace =
      [.create_vcpu 42, .destroy_vcpu specLib.INVALID_VCPUID,
        .cerr "__vcpu_op__destroy_vcpu failed\n"] ∧
    (sample_world (2 ^ 64 - 1) [1]).__vcpu_op__create_vcpu 42 = specLib.INVALID_VCPUID := by
  decide

/-- C5. When domain setup succeeds and create-vcpu gives the invalid id,
`protected_main` leaves by an exception, `main` returns the non-zero
`EXIT_FAILURE`, no run-vcpu request is issued, and the trace holds exactly one
destroy-domain request when the domain was created from an image and none in
attach mode. -/
theorem create_vcpu_failure (lib : Lib) (w : World) (args : args_type) (s1 : State)
    (hsetup : protected_main_setup lib w args State.init = .ok () s1)
    (hv : w.__vcpu_op__create_vcpu s1.g_domainid = lib.INVALID_VCPUID) :
    (∃ s, protected_main lib w args State.init =
      .throw (.exception "__vcpu_op__create_vcpu failed") s) ∧
    (main lib w (.ok args)).value = some EXIT_FAILURE ∧
    exits_nonzero (main lib w (.ok args)) ∧
    (∀ e ∈ (main lib w (.ok args)).state.trace, e.is_run_op = false) ∧
    (main lib w (.ok args)).state.trace.filter Event.is_destroy =
      (if args.elf then [.destroy s1.g_domainid] else []) := by
  have h := protected_main_invalid lib w args State.init s1 hsetup hv
  have hs1 := protected_main_setup_trace lib w args s1 hsetup
  obtain ⟨tail, hG, hc⟩ := guard_events_eq lib w lib.INVALID_VCPUID
  have hm := main_of_exception lib w args _ _ h
  refine ⟨⟨_, h⟩, ?_, ?_, ?_, ?_⟩
  · rw [hm]; rfl
  · rw [hm]; simp [exits_nonzero, Res.value, EXIT_FAILURE]
  · rw [hm, hG]
    intro e he
    simp only [Res.state, List.mem_append, List.mem_cons, List.mem_singleton,
      List.not_mem_nil, or_false] at he
    rcases he with ((he | rfl | rfl | he) | he) | rfl | rfl
    · obtain ⟨r, rfl⟩ := hs1 e he
      rfl
    · rfl
    · rfl
    · obtain ⟨text, rfl⟩ := hc e he
      rfl
    · unfold domain_guard_events at he
      split_ifs at he
      · rw [List.mem_singleton.mp he]
        rfl
      · exact absurd he (List.not_mem_nil e)
    · rfl
    · rfl
  · have h0 : s1.trace.filter Event.is_destroy = [] :=
      filter_eq_nil_of_forall (fun e he => by obtain ⟨r, rfl⟩ := hs1 e he; rfl)
    have h1 : tail.filter Event.is_destroy = [] :=
      filter_eq_nil_of_forall (fun e he => by obtain ⟨text, rfl⟩ := hc e he; rfl)
    rw [hm, hG]
    simp only [Res.state, List.filter_append, List.filter_cons, h0, h1, Event.is_destroy,
      Bool.false_eq_true, if_false, List.filter_nil, List.nil_append, List.append_nil]
    unfold domain_guard_events
    split_ifs <;> simp [List.filter_cons, Event.is_destroy]

/-- C5, witness: image mode, create-vcpu giving the invalid id. -/
theorem create_vcpu_failure_witness :
    (∃ s, protected_main specLib (sample_world (2 ^ 64 - 1) [1]) (elf_args "vmlinux")
      State.init = .throw (.exception "__vcpu_op__create_vcpu failed") s) ∧
    (main specLib (sample_world (2 ^ 64 - 1) [1]) (.ok (elf_args "vmlinux"))).value =
      some EXIT_FAILURE ∧
    exits_nonzero (main specLib (sample_world (2 ^ 64 - 1) [1]) (.ok (elf_args "vmlinux"))) ∧
    (∀ e ∈ (main specLib (sample_world (2 ^ 64 - 1) [1])
      (.ok (elf_args "vmlinux"))).state.trace, e.is_run_op = false) ∧
    (main specLib (sample_world (2 ^ 64 - 1) [1])
      (.ok (elf_args "vmlinux"))).state.trace.filter Event.is_destroy = [.destroy 7] :=
  create_vcpu_failure specLib (sample_world (2 ^ 64 - 1) [1]) (elf_args "vmlinux")
    ⟨0, 7, [.create_from_elf ⟨[127, 69, 76, 70], 4, ⟨[]⟩, 0, 0, 8⟩]⟩ (by decide) (by decide)

/-- C6. In attach mode with the caller-supplied domain id `d`, whatever the
answers of the world and however far the run loop gets, the trace of `main`
holds no create-domain request and no destroy-domain request, and its only
create-vcpu request is the one for domain `d`. -/
theorem attach_mode_frame (lib : Lib) (w : World) (args : args_type) (d : Nat)
    (he : args.elf = false) (ha : args.attach = some d) :
    (∀ e ∈ (main lib w (.ok args)).state.trace,
      e.is_create_from_elf = false ∧ e.is_destroy = false) ∧
    (main lib w (.ok args)).state.trace.filter Event.is_create_vcpu = [.create_vcpu d] := by
  obtain ⟨errs, hm, herrs⟩ := main_trace lib w args
  obtain ⟨added, hadd, hcls⟩ := attach_to_vm_frame lib w args { State.init with g_domainid := d }
  have hp : (protected_main lib w args State.init).state.trace = .create_vcpu d :: added := by
    unfold protected_main protected_main_setup
    simp only [he, ha, Bool.false_eq_true, if_false]
    have hfin : ∀ r : Res Nat, (finally_ (protected_main_guard args) r).state = r.state := by
      intro r
      cases r <;> simp [finally_, protected_main_guard, he, Res.state]
    rw [hfin, hadd]
    simp [State.init]
  rw [hm, hp]
  constructor
  · intro e hmem
    rcases List.mem_append.mp hmem with hmem | hmem
    · rcases List.mem_cons.mp hmem with rfl | hmem
      · exact ⟨rfl, rfl⟩
      · exact ⟨(hcls e hmem).1, (hcls e hmem).2.1⟩
    · obtain ⟨text, rfl⟩ := herrs e hmem
      exact ⟨rfl, rfl⟩
  · have h0 : added.filter Event.is_create_vcpu = [] :=
      filter_eq_nil_of_forall (fun e hmem => (hcls e hmem).2.2)
    have h1 : errs.filter Event.is_create_vcpu = [] :=
      filter_eq_nil_of_forall (fun e hmem => by obtain ⟨text, rfl⟩ := herrs e hmem; rfl)
    simp [List.filter_append, List.filter_cons, h0, h1, Event.is_create_vcpu]

/-- C6, witness: attach mode on domain 42, on run results that never reach a
terminal one. -/
theorem attach_mode_frame_witness :
    (∀ e ∈ (main specLib (sample_world 5 [3, 500 * 16 + 4]) (.ok (attach_args 42))).state.trace,
      e.is_create_from_elf = false ∧ e.is_destroy = false) ∧
    (main specLib (sample_world 5 [3, 500 * 16 + 4])
      (.ok (attach_args 42))).state.trace.filter Event.is_create_vcpu = [.create_vcpu 42] :=
  attach_mode_frame specLib (sample_world 5 [3, 500 * 16 + 4]) (attach_args 42) 42 rfl rfl

/-- C7. With the path given and an image of `img.length` bytes loaded, the events
`create_elf_vm` adds are exactly one creation request; it carries
`file_size = img.length`, `size = v` when the size override `v` is supplied and
`size = 2 * img.length mod 2 ^ 64` otherwise; and the call returns exactly when
the driver answers that request with a domain id. -/
theorem create_elf_vm_request_sizes (lib : Lib) (w : World) (args : args_type) (s : State)
    (p : String) (img : List Nat) (hp : args.path = some p) (hf : w.file p = some img) :
    ∃ r : create_from_elf_args,
      (create_elf_vm lib w args s).state.trace = s.trace ++ [.create_from_elf r] ∧
      r.file = img ∧ r.file_size = img.length ∧
      (∀ v, args.size = some v → r.size = v) ∧
      (args.size = none → r.size = 2 * img.length % 2 ^ 64) ∧
      ((create_elf_vm lib w args s).value = some () ↔
        (w.call_ioctl_create_from_elf r).isSome = true) := by
  obtain ⟨r, h1, h2, h3, -, -, -, hr⟩ := create_elf_vm_loaded lib w args s p img hp hf
  refine ⟨r, ?_, h1, h2, ?_, ?_, ?_⟩
  · rw [hr]
    cases w.call_ioctl_create_from_elf r <;> simp [Res.state, State.emit]
  · intro v hsz
    rw [h3, hsz]
  · intro hsz
    rw [h3, hsz]
  · rw [hr]
    cases w.call_ioctl_create_from_elf r <;> simp [Res.value]

/-- C7, witness: a four-byte image and no size override give `file_size = 4` and
`size = 8`. -/
theorem create_elf_vm_request_sizes_witness :
    (∃ r : create_from_elf_args,
      (create_elf_vm specLib (sample_world 5 [1]) (elf_args "vmlinux") State.init).state.trace =
        State.init.trace ++ [.create_from_elf r] ∧
      r.file = [127, 69, 76, 70] ∧ r.file_size = [127, 69, 76, 70].length ∧
      (∀ v, (elf_args "vmlinux").size = some v → r.size = v) ∧
      ((elf_args "vmlinux").size = none → r.size = 2 * [127, 69, 76, 70].length % 2 ^ 64) ∧
      ((create_elf_vm specLib (sample_world 5 [1]) (elf_args "vmlinux") State.init).value =
          some () ↔
        ((sample_world 5 [1]).call_ioctl_create_from_elf r).isSome = true)) ∧
    create_elf_vm specLib (sample_world 5 [1]) (elf_args "vmlinux") State.init =
      .ok () ⟨0, 7, [.create_from_elf ⟨[127, 69, 76, 70], 4, ⟨[]⟩, 0, 0, 8⟩]⟩ :=
  ⟨create_elf_vm_request_sizes specLib (sample_world 5 [1]) (elf_args "vmlinux") State.init
    "vmlinux" [127, 69, 76, 70] rfl rfl, by decide⟩

/-- C8. With the path given and the image loaded, the command line of the
request `create_elf_vm` submits holds exactly the fragments of the options that
are present, in the order uart, init, cmdline; with none of the three present it
is empty; and with only `uart = 0x3f8`, when `bfn::to_string` renders 0x3f8 in
base 16 as "3f8", it is "console=uart,io,3f8,115200n8". -/
theorem create_elf_vm_cmdl (lib : Lib) (w : World) (args : args_type) (s : State)
    (p : String) (img : List Nat) (hp : args.path = some p) (hf : w.file p = some img) :
    ∃ r : create_from_elf_args,
      (create_elf_vm lib w args s).state.trace = s.trace ++ [.create_from_elf r] ∧
      r.cmdl.frags =
        (match args.uart with
          | some v => ["console=uart,io," ++ lib.to_string v 16 ++ ",115200n8"]
          | none => []) ++
        (match args.init with
          | some v => ["init=" ++ v]
          | none => []) ++
        (match args.cmdline with
          | some v => [v]
          | none => []) ∧
      (args.uart = none → args.init = none → args.cmdline = none →
        r.cmdl.frags = [] ∧ r.cmdl.data lib.cmdl_sep = "") ∧
      (args.uart = some 0x3f8 → args.init = none → args.cmdline = none →
        lib.to_string 0x3f8 16 = "3f8" →
        r.cmdl.data lib.cmdl_sep = "console=uart,io,3f8,115200n8") := by
  obtain ⟨r, -, -, -, -, h5, -, hr⟩ := create_elf_vm_loaded lib w args s p img hp hf
  refine ⟨r, ?_, h5, ?_, ?_⟩
  · rw [hr]
    cases w.call_ioctl_create_from_elf r <;> simp [Res.state, State.emit]
  · intro hu hi hc
    have hfr : r.cmdl.frags = [] := by
      rw [h5]; simp [cmdl_frags, hu, hi, hc]
    refine ⟨hfr, ?_⟩
    unfold cmdl.data
    rw [hfr]
    rfl
  · intro hu hi hc hs
    have hfr : r.cmdl.frags = ["console=uart,io,3f8,115200n8"] := by
      rw [h5]
      simp only [cmdl_frags, hu, hi, hc, hs, List.append_nil]
      decide
    unfold cmdl.data
    rw [hfr, intercalate_singleton]

/-- C8, witness: image mode with only `uart = 0x3f8`, lower-case rendering
without prefix. -/
theorem create_elf_vm_cmdl_witness :
    (∃ r : create_from_elf_args,
      (create_elf_vm specLib (sample_world 5 [1]) (uart_args "vmlinux" 0x3f8)
        State.init).state.trace = State.init.trace ++ [.create_from_elf r] ∧
      r.cmdl.frags =
        (match (uart_args "vmlinux" 0x3f8).uart with
          | some v => ["console=uart,io," ++ specLib.to_string v 16 ++ ",115200n8"]
          | none => []) ++
        (match (uart_args "vmlinux" 0x3f8).init with
          | some v => ["init=" ++ v]
          | none => []) ++
        (match (uart_args "vmlinux" 0x3f8).cmdline with
          | some v => [v]
          | none => []) ∧
      ((uart_args "vmlinux" 0x3f8).uart = none → (uart_args "vmlinux" 0x3f8).init = none →
        (uart_args "vmlinux" 0x3f8).cmdline = none →
        r.cmdl.frags = [] ∧ r.cmdl.data specLib.cmdl_sep = "") ∧
      ((uart_args "vmlinux" 0x3f8).uart = some 0x3f8 →
        (uart_args "vmlinux" 0x3f8).init = none →
        (uart_args "vmlinux" 0x3f8).cmdline = none →
        specLib.to_string 0x3f8 16 = "3f8" →
        r.cmdl.data specLib.cmdl_sep = "console=uart,io,3f8,115200n8")) ∧
    specLib.to_string 0x3f8 16 = "3f8" ∧
    create_elf_vm specLib (sample_world 5 [1]) (uart_args "vmlinux" 0x3f8) State.init =
      .ok () ⟨0, 7, [.create_from_elf
        ⟨[127, 69, 76, 70], 4, ⟨["console=uart,io,3f8,115200n8"]⟩, 28, 0x3f8, 8⟩]⟩ :=
  ⟨create_elf_vm_cmdl specLib (sample_world 5 [1]) (uart_args "vmlinux" 0x3f8) State.init
    "vmlinux" [127, 69, 76, 70] rfl rfl, by decide, by decide⟩

/-- C9. When image-based creation is requested and no path is supplied,
`protected_main` leaves by the option exception of `create_elf_vm` with no event
in the trace, and `main` reports it and returns the non-zero `EXIT_FAILURE`,
its trace holding no request on the control channel. -/
theorem missing_path (lib : Lib) (w : World) (args : args_type)
    (he : args.elf = true) (hp : args.path = none) :
    protected_main lib w args State.init =
      .throw (.OptionException "must specify --path") ⟨0, 0, []⟩ ∧
    main lib w (.ok args) =
      .ok EXIT_FAILURE ⟨0, 0, [.cerr "invalid arguments: must specify --path\n"]⟩ ∧
    exits_nonzero (main lib w (.ok args)) ∧
    ∀ e ∈ (main lib w (.ok args)).state.trace, e.is_request = false := by
  have h : protected_main lib w args State.init =
      .throw (.OptionException "must specify --path") ⟨0, 0, []⟩ := by
    unfold protected_main protected_main_setup create_elf_vm
    simp only [he, hp, if_true]
    rfl
  have hm : main lib w (.ok args) =
      .ok EXIT_FAILURE ⟨0, 0, [.cerr "invalid arguments: must specify --path\n"]⟩ := by
    unfold main
    simp only [h, State.emit, List.nil_append]
    decide
  refine ⟨h, hm, ?_, ?_⟩
  · rw [hm]; decide
  · rw [hm]; decide

/-- C9, witness: `--elf` alone. -/
theorem missing_path_witness :
    protected_main specLib (sample_world 5 [1])
        ⟨true, none, none, none, none, none, none⟩ State.init =
      .throw (.OptionException "must specify --path") ⟨0, 0, []⟩ ∧
    main specLib (sample_world 5 [1]) (.ok ⟨true, none, none, none, none, none, none⟩) =
      .ok EXIT_FAILURE ⟨0, 0, [.cerr "invalid arguments: must specify --path\n"]⟩ ∧
    exits_nonzero
      (main specLib (sample_world 5 [1]) (.ok ⟨true, none, none, none, none, none, none⟩)) ∧
    ∀ e ∈ (main specLib (sample_world 5 [1])
      (.ok ⟨true, none, none, none, none, none, none⟩)).state.trace, e.is_request = false :=
  missing_path specLib (sample_world 5 [1]) ⟨true, none, none, none, none, none, none⟩ rfl rfl

end Bfexec
